import Mathlib

/-!
Verification of the interactive redaction engine of `nuScenesViewer`
(`src/viewer/nuscenesController/controller.py`).

Shallow embedding notes:
* Continuous (pointer-derived) coordinates are rationals; Python `int()` is
  `truncQ` (truncation toward zero).
* A raster (`numpy` array obtained from a PIL image) is a height × width ×
  channels grid of natural numbers; the statement
  `img_array[y1:y2, x1:x2] = 0` is `blackoutSlice`, with `sliceNorm`
  reproducing the `numpy`/Python slice-bound normalization (negative bounds
  count from the end, bounds are clamped to the axis length).
* A LiDAR point cloud (the `(4, N)` array) is a list of `(x, y, z, intensity)`
  quadruples; the mask `(pts[0] >= x1) & (pts[0] <= x2) & (pts[1] >= y1) &
  (pts[1] <= y2)` followed by `pts[2, mask] = 0` is `maskCloud`.
* File-system paths are lists of naturals (path components).  The expression
  `current_img_path.replace(dataroot, edited_dataset_root)` is modelled by
  `replaceRoot`: in the dataset the dataroot occurs exactly once, as a prefix,
  so `str.replace` amounts to prefix replacement.
* The matplotlib handler state of `NuScenesVisualizer`
  (`selection_start`, `selection_end`, `current_ax`, `current_img`,
  `current_img_path`, `rect`) is `CtrlState`.  A `button_press_event` runs, in
  connection order, the per-view activation closures (`on_lidar_click` /
  `on_click`) and then `on_press`; this composite is `handlePress`.
  `on_motion` and `on_release` are `onMotion` and `onRelease`.  `onRelease`
  returns the successor state, the file store, and the data handed to the
  drawing surface (`Display`); the unreachable arm in which a commit fires
  with no current image (where the Python would raise) is `none`.
* `visualize_n_frames` is `visualizeNFrames`: since the Python body contains
  no exception handler, a decoding failure (`loadFails`) aborts the loop; the
  boolean in the result records whether the walk died with an exception.
* The mirror-creation block of `__init__` is `ensureMirror` over a small
  file-system model (`MirrorFS`).
-/

namespace NuScenesViewer

/-- Python `int()` applied to a (rational-valued) float: truncation toward
zero. -/
def truncQ (q : ℚ) : ℤ := if q < 0 then ⌈q⌉ else ⌊q⌋

/-- Normalization of one Python/`numpy` slice bound for an axis of length
`L`: a negative bound counts from the end, then the bound is clamped to
`[0, L]`. -/
def sliceNorm (L : ℕ) (i : ℤ) : ℕ :=
  if i < 0 then ((L : ℤ) + i).toNat else min i.toNat L

/-- A decoded raster image: `np.array(self.current_img)` of shape
height × width × channels. -/
structure Raster where
  H : ℕ
  W : ℕ
  chans : ℕ
  pix : ℕ → ℕ → ℕ → ℕ

/-- `img_array[y1:y2, x1:x2] = 0`: every channel of every pixel whose row
lies in the normalized slice `y1:y2` and whose column lies in the normalized
slice `x1:x2` is set to zero. -/
def blackoutSlice (img : Raster) (y1 y2 x1 x2 : ℤ) : Raster :=
  { img with pix := fun r c ch =>
      if sliceNorm img.H y1 ≤ r ∧ r < sliceNorm img.H y2 ∧
          sliceNorm img.W x1 ≤ c ∧ c < sliceNorm img.W x2 then 0
      else img.pix r c ch }

/-- One LiDAR point: `(points[0,i], points[1,i], points[2,i], points[3,i])`,
i.e. x, y, z (the scalar mapped to color) and intensity. -/
abbrev Pt : Type := ℚ × ℚ × ℚ × ℚ

/-- The `(4, N)` point array, as the list of its columns. -/
abbrev Cloud : Type := List Pt

/-- The per-point effect of `points[2, mask] = 0` where
`mask = (pts[0] >= x1) & (pts[0] <= x2) & (pts[1] >= y1) & (pts[1] <= y2)`. -/
def maskPoint (x1 x2 y1 y2 : ℚ) (p : Pt) : Pt :=
  if x1 ≤ p.1 ∧ p.1 ≤ x2 ∧ y1 ≤ p.2.1 ∧ p.2.1 ≤ y2 then
    (p.1, p.2.1, 0, p.2.2.2)
  else p

/-- `points = current_img.copy(); points[2, mask] = 0` applied columnwise. -/
def maskCloud (x1 x2 y1 y2 : ℚ) (pts : Cloud) : Cloud :=
  pts.map (maskPoint x1 x2 y1 y2)

/-- A file-system path, as its list of components. -/
abbrev DPath : Type := List ℕ

/-- The visualizer's two roots: `self.nusc.dataroot` and
`self.edited_dataset_root`. -/
structure Viz where
  dataroot : DPath
  edited : DPath

/-- `p.replace(src, dst)` for paths in which `src` occurs exactly once, as a
prefix (true of every catalog path under the dataset root). -/
def replaceRoot (src dst p : DPath) : DPath :=
  if p.take src.length = src then dst ++ p.drop src.length else p

/-- `self.current_img_path.replace(self.nusc.dataroot,
self.edited_dataset_root)`. -/
def mirrorPath (viz : Viz) (p : DPath) : DPath :=
  replaceRoot viz.dataroot viz.edited p

/-- The raster files on disk, by path. -/
structure Store where
  file : DPath → Option Raster

/-- `blacked_img.save(edited_img_path)`: overwrite one path. -/
def Store.write (fs : Store) (p : DPath) (img : Raster) : Store :=
  ⟨fun q => if q = p then some img else fs.file q⟩

/-- What `self.current_img` can hold: a PIL image (camera view, with its
source path as recorded by the click closure) or a `numpy` point array
(LiDAR view). -/
inductive ViewData : Type where
  | raster (img : Raster) (path : DPath)
  | cloud (pts : Cloud)

/-- Data handed to the drawing surface on commit: `imshow(blacked_img)` or
`scatter(points[0], points[1], c=points[2])`. -/
inductive Display : Type where
  | raster (img : Raster)
  | cloud (pts : Cloud)

/-- The mutable handler state of `NuScenesVisualizer`. -/
structure CtrlState where
  selection_start : Option (ℚ × ℚ)
  selection_end : Option (ℚ × ℚ)
  current_ax : Option ℕ
  current_img : Option ViewData
  current_img_path : Option DPath
  rect : Option (ℚ × ℚ × ℚ × ℚ)

/-- The selection-reset tail of `on_release`: `selection_start = None`,
`selection_end = None`, the rectangle removed. -/
def clearSel (s : CtrlState) : CtrlState :=
  { s with selection_start := none, selection_end := none, rect := none }

/-- A matplotlib mouse event: the axes it is in (if any) and its data
coordinates. -/
structure Event where
  inaxes : Option ℕ
  xdata : ℚ
  ydata : ℚ

/-- One frame's views as laid out by `visualize_sample`; the view id is the
index in this list. -/
structure Session where
  views : List ViewData

/-- The body of `on_lidar_click` / `on_click` for the view whose axes the
event is in: record the view as current, clear any in-progress selection and
any drawn rectangle. -/
def activate (sess : Session) (s : CtrlState) (v : ℕ) : CtrlState :=
  match sess.views[v]? with
  | some (ViewData.raster img p) =>
      { s with current_ax := some v,
               current_img := some (ViewData.raster img p),
               current_img_path := some p,
               selection_start := none, selection_end := none, rect := none }
  | some (ViewData.cloud pts) =>
      { s with current_ax := some v,
               current_img := some (ViewData.cloud pts),
               current_img_path := none,
               selection_start := none, selection_end := none, rect := none }
  | none => s

/-- `on_press`: if the event is in the current axes, anchor a selection and a
zero-size rectangle at the event's data coordinates. -/
def onPress (s : CtrlState) (e : Event) : CtrlState :=
  if e.inaxes = s.current_ax then
    { s with selection_start := some (e.xdata, e.ydata),
             rect := some (e.xdata, e.ydata, 0, 0) }
  else s

/-- A full `button_press_event`: the activation closures run first (in
`mpl_connect` order), then `on_press`. -/
def handlePress (sess : Session) (s : CtrlState) (e : Event) : CtrlState :=
  onPress (match e.inaxes with
           | some v => activate sess s v
           | none => s) e

/-- `on_motion`: while a selection and a rectangle exist and the event is in
the current axes, resize the rectangle; otherwise return unchanged. -/
def onMotion (s : CtrlState) (e : Event) : CtrlState :=
  match s.selection_start, s.rect with
  | some (sx, sy), some (ax, ay, _, _) =>
      if e.inaxes = s.current_ax then
        { s with rect := some (ax, ay, e.xdata - sx, e.ydata - sy) }
      else s
  | _, _ => s

/-- `on_release`.  Returns the successor handler state, the file store, and
the data redrawn on the surface (`none` when the guard returned early).  The
result is `none` only in the unreachable arm where a commit fires with
`current_img` unset (the Python would raise there). -/
def onRelease (viz : Viz) (s : CtrlState) (fs : Store) (e : Event) :
    Option (CtrlState × Store × Option Display) :=
  match s.selection_start with
  | none => some (s, fs, none)
  | some (sx, sy) =>
    if e.inaxes = s.current_ax then
      let x1 := min sx e.xdata
      let x2 := max sx e.xdata
      let y1 := min sy e.ydata
      let y2 := max sy e.ydata
      let s2 : CtrlState :=
        { s with selection_start := none, selection_end := none, rect := none }
      match s.current_img with
      | some (ViewData.cloud pts) =>
          some (s2, fs, some (Display.cloud (maskCloud x1 x2 y1 y2 pts)))
      | some (ViewData.raster img _) =>
          let blacked :=
            blackoutSlice img (truncQ y1) (truncQ y2) (truncQ x1) (truncQ x2)
          let fs2 := match s.current_img_path with
            | some p => fs.write (mirrorPath viz p) blacked
            | none => fs
          some (s2, fs2, some (Display.raster blacked))
      | none => none
    else some (s, fs, none)

/-- One press / release pair on a view: a full selection gesture. -/
def commitOnView (viz : Viz) (sess : Session) (s : CtrlState) (fs : Store)
    (pe re : Event) : Option (CtrlState × Store × Option Display) :=
  onRelease viz (handlePress sess s pe) fs re

/-- A sequence of selection gestures, threading handler state and store. -/
def runCommits (viz : Viz) (sess : Session) :
    CtrlState → Store → List (Event × Event) → Option (CtrlState × Store)
  | s, fs, [] => some (s, fs)
  | s, fs, (pe, re) :: rest =>
    match commitOnView viz sess s fs pe re with
    | some (s1, fs1, _) => runCommits viz sess s1 fs1 rest
    | none => none

/-- The read-only catalog interface used by the navigation loop: the first
sample token of a scene, the `next` link (`0` is the empty token, i.e. end of
chain), and whether materializing a frame's views raises (a file of that
frame missing or undecodable: `Image.open` / `LidarPointCloud.from_file`
fails). -/
structure Catalog where
  firstToken : ℕ → ℕ
  nextToken : ℕ → ℕ
  loadFails : ℕ → Bool

/-- The loop body of `visualize_n_frames`, starting from a given token with a
given remaining frame budget.  Returns the tokens actually visualized and
whether the loop was aborted by an exception: the Python body contains no
`try`/`except`, so a decoding failure propagates and ends the walk. -/
def framesWalk (cat : Catalog) : ℕ → ℕ → List ℕ × Bool
  | 0, _ => ([], false)
  | n + 1, tok =>
    if tok = 0 then ([], false)
    else if cat.loadFails tok then ([], true)
    else
      let r := framesWalk cat n (cat.nextToken tok)
      (tok :: r.1, r.2)

/-- `visualize_n_frames(n_frames, scene_index)`. -/
def visualizeNFrames (cat : Catalog) (nFrames sceneIndex : ℕ) : List ℕ × Bool :=
  framesWalk cat nFrames (cat.firstToken sceneIndex)

/-- The token chain a fault-free walk would visit: up to `n` tokens following
the `next` links from `tok`, stopping at the empty token. -/
def tokenChain (cat : Catalog) : ℕ → ℕ → List ℕ
  | 0, _ => []
  | n + 1, tok =>
    if tok = 0 then [] else tok :: tokenChain cat n (cat.nextToken tok)

/-- A small file-system model for the mirror-creation block of `__init__`:
the set of existing directories and the files with their content (the content
marker also stands for the `copy2`-preserved metadata). -/
structure MirrorFS where
  dirs : List DPath
  files : List (DPath × ℕ)

/-- Is `p` strictly below the directory `root`? -/
def underRoot (root p : DPath) : Bool :=
  decide (p.take root.length = root) && decide (root.length < p.length)

/-- The mirror-creation block of `__init__`: if the edited root does not
exist, create it, recreate every directory of the source tree under it, and
copy every file; if it exists, do nothing at all. -/
def ensureMirror (srcRoot dstRoot : DPath) (fs : MirrorFS) : MirrorFS :=
  if dstRoot ∈ fs.dirs then fs
  else
    { dirs := fs.dirs ++ dstRoot ::
        (fs.dirs.filter (fun d => underRoot srcRoot d)).map
          (replaceRoot srcRoot dstRoot),
      files := fs.files ++
        (fs.files.filter (fun f => underRoot srcRoot f.1)).map
          (fun f => (replaceRoot srcRoot dstRoot f.1, f.2)) }

/-! ## Shared concrete fixtures -/

/-- A visualizer with dataroot `[0]` and edited root `[1]`. -/
def vizX : Viz := ⟨[0], [1]⟩

/-- An empty raster store. -/
def fsX : Store := ⟨fun _ => none⟩

/-- The all-clear handler state (fresh `__init__` fields). -/
def s0 : CtrlState := ⟨none, none, none, none, none, none⟩

/-! ## C9: pointer-up with no prior pointer-down -/

/-- Claim C9: a pointer-up with `selection_start` unset is ignored: the
handler state, the file store and the display are untouched, whatever the
rest of the state is. -/
theorem claim_C9_release_guard (viz : Viz) (s : CtrlState) (fs : Store)
    (e : Event) (h : s.selection_start = none) :
    onRelease viz s fs e = some (s, fs, none) := by
  simp [onRelease, h]

/-- Claim C9, witness: the guard at a concrete state and event. -/
theorem claim_C9_witness :
    s0.selection_start = none ∧
      onRelease vizX s0 fsX ⟨some 0, 2, 3⟩ = some (s0, fsX, none) :=
  ⟨rfl, claim_C9_release_guard vizX s0 fsX ⟨some 0, 2, 3⟩ rfl⟩

/-! ## C5: pointer-up outside the active view -/

/-- A state in mid-drag on the LiDAR view (view 0). -/
def sC5 : CtrlState :=
  ⟨some (1, 1), none, some 0, some (ViewData.cloud [(2, 2, 3, 4)]), none,
    some (1, 1, 0, 0)⟩

/-- A release event off every axes. -/
def eC5 : Event := ⟨none, 5, 5⟩

/-- Claim C5, counterexample: a pointer-up off-canvas while a selection is in
progress leaves `selection_start` and the drawn rectangle in place — the
in-progress selection is not discarded, contradicting the claim. -/
theorem claim_C5_counterexample :
    onRelease vizX sC5 fsX eC5 = some (sC5, fsX, none) ∧
      sC5.selection_start = some (1, 1) ∧
      sC5.rect = some (1, 1, 0, 0) ∧
      some ((1 : ℚ), (1 : ℚ)) ≠ (none : Option (ℚ × ℚ)) := by
  refine ⟨?_, rfl, rfl, by simp⟩
  simp [onRelease, sC5, eC5]

/-- `on_release` on an event outside the current axes returns without any
effect. -/
lemma onRelease_outside (viz : Viz) (s : CtrlState) (fs : Store) (e : Event)
    (h : e.inaxes ≠ s.current_ax) :
    onRelease viz s fs e = some (s, fs, none) := by
  rcases hss : s.selection_start with _ | ⟨sx, sy⟩
  · simp [onRelease, hss]
  · simp [onRelease, hss, h]

/-- `on_motion` on an event outside the current axes returns without any
effect. -/
lemma onMotion_outside (s : CtrlState) (e : Event)
    (h : e.inaxes ≠ s.current_ax) : onMotion s e = s := by
  rcases hss : s.selection_start with _ | ⟨a, b⟩ <;>
    rcases hr : s.rect with _ | ⟨q1, q2, q3, q4⟩ <;>
      simp [onMotion, hss, hr, h]

/-- Claim C5 as amended: a pointer-up outside the active view mutates no data
and redraws nothing, but the in-progress selection is retained unchanged
(state, store and overlay are exactly as before the event), not discarded. -/
theorem claim_C5_amended (viz : Viz) (s : CtrlState) (fs : Store) (e : Event)
    (h : e.inaxes ≠ s.current_ax) :
    onRelease viz s fs e = some (s, fs, none) :=
  onRelease_outside viz s fs e h

/-- Claim C5, witness: the amended statement at a concrete mid-drag state and
an off-canvas release. -/
theorem claim_C5_witness :
    eC5.inaxes ≠ sC5.current_ax ∧
      onRelease vizX sC5 fsX eC5 = some (sC5, fsX, none) :=
  ⟨by simp [eC5, sC5], claim_C5_amended vizX sC5 fsX eC5 (by simp [eC5, sC5])⟩

/-! ## C7: mirror creation is idempotent -/

/-- If the edited root already exists, `__init__` makes no filesystem change
at all. -/
lemma ensureMirror_of_mem (srcRoot dstRoot : DPath) (fs : MirrorFS)
    (h : dstRoot ∈ fs.dirs) : ensureMirror srcRoot dstRoot fs = fs := by
  simp [ensureMirror, h]

/-- After `ensureMirror` the edited root exists. -/
lemma mem_ensureMirror_dirs (srcRoot dstRoot : DPath) (fs : MirrorFS) :
    dstRoot ∈ (ensureMirror srcRoot dstRoot fs).dirs := by
  by_cases h : dstRoot ∈ fs.dirs <;> simp [ensureMirror, h]

/-- Claim C7: if the mirror root already exists at construction, nothing is
created, copied or overwritten (the filesystem is returned unchanged), and
a second construction after a first one changes nothing — the full recursive
copy happens at most once per source root. -/
theorem claim_C7_mirror_idempotent (srcRoot dstRoot : DPath) (fs : MirrorFS) :
    (dstRoot ∈ fs.dirs → ensureMirror srcRoot dstRoot fs = fs) ∧
      ensureMirror srcRoot dstRoot (ensureMirror srcRoot dstRoot fs) =
        ensureMirror srcRoot dstRoot fs :=
  ⟨ensureMirror_of_mem srcRoot dstRoot fs,
    ensureMirror_of_mem srcRoot dstRoot _
      (mem_ensureMirror_dirs srcRoot dstRoot fs)⟩

/-- Claim C7, witness: a filesystem in which the mirror root `[1]` already
holds a (previously edited) file is returned unchanged. -/
theorem claim_C7_witness :
    ([1] : DPath) ∈ (⟨[[0], [1]], [([1, 4], 9)]⟩ : MirrorFS).dirs ∧
      ((([1] : DPath) ∈ (⟨[[0], [1]], [([1, 4], 9)]⟩ : MirrorFS).dirs →
          ensureMirror [0] [1] ⟨[[0], [1]], [([1, 4], 9)]⟩ =
            ⟨[[0], [1]], [([1, 4], 9)]⟩) ∧
        ensureMirror [0] [1]
            (ensureMirror [0] [1] ⟨[[0], [1]], [([1, 4], 9)]⟩) =
          ensureMirror [0] [1] ⟨[[0], [1]], [([1, 4], 9)]⟩) :=
  ⟨by decide, claim_C7_mirror_idempotent [0] [1] ⟨[[0], [1]], [([1, 4], 9)]⟩⟩

/-! ## C6: a load failure during the walk -/

/-- Claim C6 as amended: `visualize_n_frames` has no exception handler, so
the walk visits exactly the frames of the chain strictly before the first
frame whose materialization fails, and dies there when such a frame exists
within the budget — the failing frame is not skipped and no later frame is
visited. -/
theorem claim_C6_amended (cat : Catalog) (nFrames sceneIndex : ℕ) :
    visualizeNFrames cat nFrames sceneIndex =
      ((tokenChain cat nFrames (cat.firstToken sceneIndex)).takeWhile
          (fun t => !cat.loadFails t),
        (tokenChain cat nFrames (cat.firstToken sceneIndex)).any
          cat.loadFails) := by
  unfold visualizeNFrames
  generalize cat.firstToken sceneIndex = tok
  induction nFrames generalizing tok with
  | zero => simp [framesWalk, tokenChain]
  | succ n ih =>
    by_cases h0 : tok = 0
    · simp [framesWalk, tokenChain, h0]
    · by_cases hf : cat.loadFails tok
      · simp [framesWalk, tokenChain, h0, hf]
      · simp [framesWalk, tokenChain, h0, hf, ih]

/-- A three-frame scene (tokens 1 → 2 → 3) whose middle frame fails to
load. -/
def catC6 : Catalog :=
  ⟨fun _ => 1,
    fun t => if t = 1 then 2 else if t = 2 then 3 else 0,
    fun t => t == 2⟩

/-- Claim C6, counterexample: with frames 1 → 2 → 3 and frame 2 failing, the
walk visualizes only frame 1 and terminates with the error; frame 3 is never
visited, contradicting "only that frame is skipped and the loop advances". -/
theorem claim_C6_counterexample :
    visualizeNFrames catC6 5 1 = ([1], true) ∧
      3 ∉ (visualizeNFrames catC6 5 1).1 := by
  constructor <;> decide

/-! ## C1: raster redaction -/

/-- `int()` of a nonnegative value is nonnegative. -/
lemma truncQ_nonneg {q : ℚ} (h : 0 ≤ q) : 0 ≤ truncQ q := by
  simp only [truncQ, if_neg (not_lt.2 h)]
  exact Int.floor_nonneg.2 h

/-- For nonnegative slice bounds, `numpy` slicing is clipping to the axis:
on an in-range index, membership in the normalized slice is exactly
truncated-bound membership clipped to the axis length. -/
lemma blackoutSlice_pix (img : Raster) (y1 y2 x1 x2 : ℤ)
    (hy1 : 0 ≤ y1) (hy2 : 0 ≤ y2) (hx1 : 0 ≤ x1) (hx2 : 0 ≤ x2)
    (r c ch : ℕ) (hr : r < img.H) (hc : c < img.W) :
    (blackoutSlice img y1 y2 x1 x2).pix r c ch =
      if y1.toNat ≤ r ∧ (r : ℤ) < y2 ∧ x1.toNat ≤ c ∧ (c : ℤ) < x2 then 0
      else img.pix r c ch := by
  have hcond : (sliceNorm img.H y1 ≤ r ∧ r < sliceNorm img.H y2 ∧
      sliceNorm img.W x1 ≤ c ∧ c < sliceNorm img.W x2) ↔
      (y1.toNat ≤ r ∧ (r : ℤ) < y2 ∧ x1.toNat ≤ c ∧ (c : ℤ) < x2) := by
    simp only [sliceNorm, if_neg (not_lt.2 hy1), if_neg (not_lt.2 hy2),
      if_neg (not_lt.2 hx1), if_neg (not_lt.2 hx2)]
    omega
  simp only [blackoutSlice]
  exact if_congr hcond rfl rfl

/-- Claim C1: committing a selection on a raster view with nonnegative
normalized continuous corners redraws the raster obtained by truncating each
corner toward zero, clipping to the raster bounds, and zeroing every channel
of every pixel strictly inside the truncated rectangle, all other pixels
keeping their pre-commit value. -/
theorem claim_C1_raster_commit (viz : Viz) (s : CtrlState) (fs : Store)
    (e : Event) (img : Raster) (pth : DPath) (sx sy : ℚ)
    (him : s.current_img = some (ViewData.raster img pth))
    (hsel : s.selection_start = some (sx, sy))
    (hax : e.inaxes = s.current_ax)
    (hsx : 0 ≤ sx) (hsy : 0 ≤ sy) (hex : 0 ≤ e.xdata) (hey : 0 ≤ e.ydata) :
    (∃ s2 fs2, onRelease viz s fs e = some (s2, fs2, some (Display.raster
        (blackoutSlice img (truncQ (min sy e.ydata)) (truncQ (max sy e.ydata))
          (truncQ (min sx e.xdata)) (truncQ (max sx e.xdata)))))) ∧
    (∀ r, r < img.H → ∀ c, c < img.W → ∀ ch, ch < img.chans →
      (((truncQ (min sy e.ydata)).toNat ≤ r ∧
          (r : ℤ) < truncQ (max sy e.ydata) ∧
          (truncQ (min sx e.xdata)).toNat ≤ c ∧
          (c : ℤ) < truncQ (max sx e.xdata)) →
        (blackoutSlice img (truncQ (min sy e.ydata)) (truncQ (max sy e.ydata))
          (truncQ (min sx e.xdata)) (truncQ (max sx e.xdata))).pix r c ch
          = 0) ∧
      (¬ ((truncQ (min sy e.ydata)).toNat ≤ r ∧
          (r : ℤ) < truncQ (max sy e.ydata) ∧
          (truncQ (min sx e.xdata)).toNat ≤ c ∧
          (c : ℤ) < truncQ (max sx e.xdata)) →
        (blackoutSlice img (truncQ (min sy e.ydata)) (truncQ (max sy e.ydata))
          (truncQ (min sx e.xdata)) (truncQ (max sx e.xdata))).pix r c ch
          = img.pix r c ch)) := by
  constructor
  · rcases hp : s.current_img_path with _ | p
    · exact ⟨clearSel s, fs, by simp [onRelease, clearSel, hsel, hax, him, hp]⟩
    · exact ⟨clearSel s,
        fs.write (mirrorPath viz p)
          (blackoutSlice img (truncQ (min sy e.ydata))
            (truncQ (max sy e.ydata)) (truncQ (min sx e.xdata))
            (truncQ (max sx e.xdata))),
        by simp [onRelease, clearSel, hsel, hax, him, hp]⟩
  · intro r hr c hc ch hch
    have e1 : 0 ≤ truncQ (min sy e.ydata) := truncQ_nonneg (le_min hsy hey)
    have e2 : 0 ≤ truncQ (max sy e.ydata) :=
      truncQ_nonneg (le_max_of_le_left hsy)
    have e3 : 0 ≤ truncQ (min sx e.xdata) := truncQ_nonneg (le_min hsx hex)
    have e4 : 0 ≤ truncQ (max sx e.xdata) :=
      truncQ_nonneg (le_max_of_le_left hsx)
    rw [blackoutSlice_pix img _ _ _ _ e1 e2 e3 e4 r c ch hr hc]
    constructor
    · intro h; rw [if_pos h]
    · intro h; rw [if_neg h]

/-- A 2 × 3 single-channel raster with pixel values `r + c + 1`. -/
def imgW1 : Raster := ⟨2, 3, 1, fun r c _ => r + c + 1⟩

/-- Source path of `imgW1` under the dataroot of `vizX`. -/
def pW1 : DPath := [0, 5]

/-- A state mid-drag on a camera view showing `imgW1`, anchored at (0, 0). -/
def sW1 : CtrlState :=
  ⟨some (0, 0), none, some 0, some (ViewData.raster imgW1 pW1), some pW1,
    none⟩

/-- The release event for the witness gesture: corner₂ = (5/2, 1). -/
def eW1 : Event := ⟨some 0, 5/2, 1⟩

/-- Claim C1, witness: the raster-commit theorem applied to a concrete 2 × 3
raster and the gesture (0,0) → (5/2, 1). -/
theorem claim_C1_witness :
    (0 ≤ (0 : ℚ)) ∧ (0 ≤ eW1.xdata) ∧ (0 ≤ eW1.ydata) ∧
    ((∃ s2 fs2, onRelease vizX sW1 fsX eW1 = some (s2, fs2,
        some (Display.raster
          (blackoutSlice imgW1 (truncQ (min 0 eW1.ydata))
            (truncQ (max 0 eW1.ydata)) (truncQ (min 0 eW1.xdata))
            (truncQ (max 0 eW1.xdata)))))) ∧
      (∀ r, r < imgW1.H → ∀ c, c < imgW1.W → ∀ ch, ch < imgW1.chans →
        (((truncQ (min 0 eW1.ydata)).toNat ≤ r ∧
            (r : ℤ) < truncQ (max 0 eW1.ydata) ∧
            (truncQ (min 0 eW1.xdata)).toNat ≤ c ∧
            (c : ℤ) < truncQ (max 0 eW1.xdata)) →
          (blackoutSlice imgW1 (truncQ (min 0 eW1.ydata))
            (truncQ (max 0 eW1.ydata)) (truncQ (min 0 eW1.xdata))
            (truncQ (max 0 eW1.xdata))).pix r c ch = 0) ∧
        (¬ ((truncQ (min 0 eW1.ydata)).toNat ≤ r ∧
            (r : ℤ) < truncQ (max 0 eW1.ydata) ∧
            (truncQ (min 0 eW1.xdata)).toNat ≤ c ∧
            (c : ℤ) < truncQ (max 0 eW1.xdata)) →
          (blackoutSlice imgW1 (truncQ (min 0 eW1.ydata))
            (truncQ (max 0 eW1.ydata)) (truncQ (min 0 eW1.xdata))
            (truncQ (max 0 eW1.xdata))).pix r c ch = imgW1.pix r c ch))) :=
  ⟨le_refl 0, by norm_num [eW1], by norm_num [eW1],
    claim_C1_raster_commit vizX sW1 fsX eW1 imgW1 pW1 0 0 rfl rfl rfl
      (le_refl 0) (le_refl 0) (by norm_num [eW1]) (by norm_num [eW1])⟩

/-! ## C2: point-cloud redaction -/

/-- Claim C2: committing a selection on the point-cloud view redraws the
cloud in which every point whose plotted coordinates lie inside the
normalized rectangle (inclusive on both bounds) has its color-mapped scalar
zeroed and its other components kept, while every other point is unchanged;
the stored state and the file store are untouched. -/
theorem claim_C2_pointcloud_commit (viz : Viz) (s : CtrlState) (fs : Store)
    (e : Event) (pts : Cloud) (sx sy : ℚ)
    (him : s.current_img = some (ViewData.cloud pts))
    (hsel : s.selection_start = some (sx, sy))
    (hax : e.inaxes = s.current_ax) :
    onRelease viz s fs e = some (clearSel s, fs, some (Display.cloud
      (maskCloud (min sx e.xdata) (max sx e.xdata) (min sy e.ydata)
        (max sy e.ydata) pts))) ∧
    (maskCloud (min sx e.xdata) (max sx e.xdata) (min sy e.ydata)
        (max sy e.ydata) pts).length = pts.length ∧
    (∀ i, ∀ h : i < pts.length,
      ((min sx e.xdata ≤ (pts.get ⟨i, h⟩).1 ∧
          (pts.get ⟨i, h⟩).1 ≤ max sx e.xdata ∧
          min sy e.ydata ≤ (pts.get ⟨i, h⟩).2.1 ∧
          (pts.get ⟨i, h⟩).2.1 ≤ max sy e.ydata) →
        (maskCloud (min sx e.xdata) (max sx e.xdata) (min sy e.ydata)
            (max sy e.ydata) pts)[i]? =
          some ((pts.get ⟨i, h⟩).1, (pts.get ⟨i, h⟩).2.1, 0,
            (pts.get ⟨i, h⟩).2.2.2)) ∧
      (¬ (min sx e.xdata ≤ (pts.get ⟨i, h⟩).1 ∧
          (pts.get ⟨i, h⟩).1 ≤ max sx e.xdata ∧
          min sy e.ydata ≤ (pts.get ⟨i, h⟩).2.1 ∧
          (pts.get ⟨i, h⟩).2.1 ≤ max sy e.ydata) →
        (maskCloud (min sx e.xdata) (max sx e.xdata) (min sy e.ydata)
            (max sy e.ydata) pts)[i]? = some (pts.get ⟨i, h⟩))) := by
  refine ⟨by simp [onRelease, clearSel, hsel, hax, him],
    by simp [maskCloud], ?_⟩
  intro i h
  have hm : (maskCloud (min sx e.xdata) (max sx e.xdata) (min sy e.ydata)
      (max sy e.ydata) pts)[i]? =
      some (maskPoint (min sx e.xdata) (max sx e.xdata) (min sy e.ydata)
        (max sy e.ydata) (pts.get ⟨i, h⟩)) := by
    simp [maskCloud, List.getElem?_eq_getElem h]
  constructor
  · intro hin
    rw [hm]
    simp only [maskPoint]
    rw [if_pos hin]
  · intro hout
    rw [hm]
    simp only [maskPoint]
    rw [if_neg hout]

/-- A three-point cloud for the C2 witness. -/
def ptsW2 : Cloud := [(1, 1, 5, 9), (3, 3, 7, 8)]

/-- A state mid-drag on the LiDAR view showing `ptsW2`, anchored at (0, 0). -/
def sW2 : CtrlState :=
  ⟨some (0, 0), none, some 0, some (ViewData.cloud ptsW2), none, none⟩

/-- The release event for the C2 witness gesture: corner₂ = (2, 2). -/
def eW2 : Event := ⟨some 0, 2, 2⟩

/-- Claim C2, witness: the point-cloud commit theorem applied to a concrete
two-point cloud, the gesture (0,0) → (2,2) selecting exactly the first
point. -/
theorem claim_C2_witness :
    sW2.current_img = some (ViewData.cloud ptsW2) ∧
    (onRelease vizX sW2 fsX eW2 = some (clearSel sW2, fsX, some (Display.cloud
        (maskCloud (min 0 eW2.xdata) (max 0 eW2.xdata) (min 0 eW2.ydata)
          (max 0 eW2.ydata) ptsW2))) ∧
      (maskCloud (min 0 eW2.xdata) (max 0 eW2.xdata) (min 0 eW2.ydata)
          (max 0 eW2.ydata) ptsW2).length = ptsW2.length ∧
      (∀ i, ∀ h : i < ptsW2.length,
        ((min 0 eW2.xdata ≤ (ptsW2.get ⟨i, h⟩).1 ∧
            (ptsW2.get ⟨i, h⟩).1 ≤ max 0 eW2.xdata ∧
            min 0 eW2.ydata ≤ (ptsW2.get ⟨i, h⟩).2.1 ∧
            (ptsW2.get ⟨i, h⟩).2.1 ≤ max 0 eW2.ydata) →
          (maskCloud (min 0 eW2.xdata) (max 0 eW2.xdata) (min 0 eW2.ydata)
              (max 0 eW2.ydata) ptsW2)[i]? =
            some ((ptsW2.get ⟨i, h⟩).1, (ptsW2.get ⟨i, h⟩).2.1, 0,
              (ptsW2.get ⟨i, h⟩).2.2.2)) ∧
        (¬ (min 0 eW2.xdata ≤ (ptsW2.get ⟨i, h⟩).1 ∧
            (ptsW2.get ⟨i, h⟩).1 ≤ max 0 eW2.xdata ∧
            min 0 eW2.ydata ≤ (ptsW2.get ⟨i, h⟩).2.1 ∧
            (ptsW2.get ⟨i, h⟩).2.1 ≤ max 0 eW2.ydata) →
          (maskCloud (min 0 eW2.xdata) (max 0 eW2.xdata) (min 0 eW2.ydata)
              (max 0 eW2.ydata) ptsW2)[i]? = some (ptsW2.get ⟨i, h⟩)))) :=
  ⟨rfl, claim_C2_pointcloud_commit vizX sW2 fsX eW2 ptsW2 0 0 rfl rfl rfl⟩

/-! ## C4: zero-area selection -/

/-- The inclusive mask of a degenerate rectangle still selects the points
sitting exactly on the corner. -/
lemma maskPoint_degenerate (x y : ℚ) :
    maskPoint x x y y = fun p : Pt =>
      if p.1 = x ∧ p.2.1 = y then (p.1, p.2.1, 0, p.2.2.2) else p := by
  funext p
  simp only [maskPoint]
  have hiff : (x ≤ p.1 ∧ p.1 ≤ x ∧ y ≤ p.2.1 ∧ p.2.1 ≤ y) ↔
      (p.1 = x ∧ p.2.1 = y) := by
    constructor
    · rintro ⟨h1, h2, h3, h4⟩
      exact ⟨le_antisymm h2 h1, le_antisymm h4 h3⟩
    · rintro ⟨h1, h2⟩
      exact ⟨h1.ge, h1.le, h2.ge, h2.le⟩
  exact if_congr hiff rfl rfl

/-- An empty slice assignment changes no pixel. -/
lemma blackoutSlice_degenerate (img : Raster) (y x : ℤ) (r c ch : ℕ) :
    (blackoutSlice img y y x x).pix r c ch = img.pix r c ch := by
  simp only [blackoutSlice]
  rw [if_neg]
  omega

/-- Claim C4 as amended: a selection whose two corners coincide commits
without error; on a raster view it is a pixel-for-pixel no-op, but on the
point-cloud view it zeroes the color-mapped scalar of exactly those points
whose plotted coordinates equal the corner — it is a no-op only when no such
point exists (or such points already carry scalar zero). -/
theorem claim_C4_amended (viz : Viz) (s : CtrlState) (fs : Store) (e : Event)
    (sx sy : ℚ)
    (hsel : s.selection_start = some (sx, sy))
    (hax : e.inaxes = s.current_ax)
    (hex : e.xdata = sx) (hey : e.ydata = sy) :
    (∀ pts, s.current_img = some (ViewData.cloud pts) →
      onRelease viz s fs e = some (clearSel s, fs, some (Display.cloud
        (pts.map fun p =>
          if p.1 = sx ∧ p.2.1 = sy then (p.1, p.2.1, 0, p.2.2.2) else p)))) ∧
    (∀ img pth, s.current_img = some (ViewData.raster img pth) →
      ∃ s2 fs2 out,
        onRelease viz s fs e = some (s2, fs2, some (Display.raster out)) ∧
          ∀ r c ch, out.pix r c ch = img.pix r c ch) := by
  constructor
  · intro pts him
    simp [onRelease, clearSel, hsel, hax, him, hex, hey, maskCloud,
      min_self, max_self, maskPoint_degenerate]
  · intro img pth him
    rcases hp : s.current_img_path with _ | p
    · refine ⟨clearSel s, fs,
        blackoutSlice img (truncQ sy) (truncQ sy) (truncQ sx) (truncQ sx),
        ?_, fun r c ch => blackoutSlice_degenerate img (truncQ sy)
          (truncQ sx) r c ch⟩
      simp [onRelease, clearSel, hsel, hax, him, hp, hex, hey]
    · refine ⟨clearSel s,
        fs.write (mirrorPath viz p)
          (blackoutSlice img (truncQ sy) (truncQ sy) (truncQ sx)
            (truncQ sx)),
        blackoutSlice img (truncQ sy) (truncQ sy) (truncQ sx) (truncQ sx),
        ?_, fun r c ch => blackoutSlice_degenerate img (truncQ sy)
          (truncQ sx) r c ch⟩
      simp [onRelease, clearSel, hsel, hax, him, hp, hex, hey]

/-- A LiDAR state whose single point sits exactly at the origin with nonzero
elevation. -/
def sC4 : CtrlState :=
  ⟨some (0, 0), none, some 0, some (ViewData.cloud [(0, 0, 5, 1)]), none,
    none⟩

/-- A release at the anchor itself: a zero-area selection. -/
def eC4 : Event := ⟨some 0, 0, 0⟩

/-- The cloud redrawn by the zero-area commit on `sC4`. -/
def c4cloud : Option Cloud :=
  match onRelease vizX sC4 fsX eC4 with
  | some (_, _, some (Display.cloud pts)) => some pts
  | _ => none

/-- Claim C4, counterexample: committing the zero-area selection at (0,0) on
a cloud holding the point (0,0,5,1) redraws (0,0,0,1) — the point's
color-mapped scalar is zeroed, so the data is not byte-identical. -/
theorem claim_C4_counterexample :
    c4cloud = some [(0, 0, 0, 1)] ∧
      (some [((0 : ℚ), (0 : ℚ), (0 : ℚ), (1 : ℚ))] : Option Cloud) ≠
        some [((0 : ℚ), (0 : ℚ), (5 : ℚ), (1 : ℚ))] := by
  constructor <;> decide

/-- Claim C4, witness: the amended theorem applied to the concrete
degenerate gesture of `sC4`. -/
theorem claim_C4_witness :
    eC4.xdata = 0 ∧ eC4.ydata = 0 ∧
    ((∀ pts, sC4.current_img = some (ViewData.cloud pts) →
      onRelease vizX sC4 fsX eC4 = some (clearSel sC4, fsX,
        some (Display.cloud (pts.map fun p =>
          if p.1 = 0 ∧ p.2.1 = 0 then (p.1, p.2.1, 0, p.2.2.2) else p)))) ∧
     (∀ img pth, sC4.current_img = some (ViewData.raster img pth) →
      ∃ s2 fs2 out,
        onRelease vizX sC4 fsX eC4 = some (s2, fs2,
          some (Display.raster out)) ∧
          ∀ r c ch, out.pix r c ch = img.pix r c ch)) :=
  ⟨rfl, rfl, claim_C4_amended vizX sC4 fsX eC4 0 0 rfl rfl rfl rfl⟩

/-! ## C8: pointer interaction in a different view -/

/-- A small 2 × 2 camera raster for the C8 fixtures. -/
def imgX8 : Raster := ⟨2, 2, 1, fun _ _ _ => 7⟩

/-- A two-view session: LiDAR at index 0, a camera raster at index 1. -/
def sessC8 : Session :=
  ⟨[ViewData.cloud [(0, 0, 1, 1)], ViewData.raster imgX8 [0, 3]]⟩

/-- A state mid-drag on view 0. -/
def sC8 : CtrlState :=
  ⟨some (3, 3), none, some 0, some (ViewData.cloud [(0, 0, 1, 1)]), none,
    some (3, 3, 0, 0)⟩

/-- A press landing in view 1 while view 0 is active. -/
def eC8 : Event := ⟨some 1, 4, 5⟩

/-- Claim C8, counterexample: after a press inside a different view, the
previous selection is cleared but a new drag is immediately anchored at the
press point — `selection_start` is set, so the state is not "ViewActive with
no drag in progress" as claimed. -/
theorem claim_C8_counterexample :
    (handlePress sessC8 sC8 eC8).current_ax = some 1 ∧
      (handlePress sessC8 sC8 eC8).selection_start = some (4, 5) ∧
      some ((4 : ℚ), (5 : ℚ)) ≠ (none : Option (ℚ × ℚ)) := by
  refine ⟨?_, ?_, by simp⟩ <;>
    simp [handlePress, activate, onPress, sessC8, sC8, eC8]

/-- Claim C8 as amended: only a pointer *press* inside a different view's
region activates that view; the press clears the previous in-progress
selection and overlay but immediately anchors a new selection and a
zero-size rectangle at the press point, leaving a drag in progress.  A
pointer-move or pointer-up inside a different view is ignored entirely and
does not activate it. -/
theorem claim_C8_amended (viz : Viz) (sess : Session) (s : CtrlState)
    (fs : Store) (e : Event) (v : ℕ) (vd : ViewData)
    (hv : e.inaxes = some v)
    (hdiff : s.current_ax ≠ some v)
    (hview : sess.views[v]? = some vd) :
    ((handlePress sess s e).current_ax = some v ∧
      (handlePress sess s e).current_img = some vd ∧
      (handlePress sess s e).selection_start = some (e.xdata, e.ydata) ∧
      (handlePress sess s e).rect = some (e.xdata, e.ydata, 0, 0)) ∧
    onMotion s e = s ∧
    onRelease viz s fs e = some (s, fs, none) := by
  have hne : e.inaxes ≠ s.current_ax := by
    rw [hv]
    exact fun hh => hdiff hh.symm
  refine ⟨?_, onMotion_outside s e hne, onRelease_outside viz s fs e hne⟩
  cases vd with
  | raster img p => simp [handlePress, activate, onPress, hv, hview]
  | cloud pts => simp [handlePress, activate, onPress, hv, hview]

/-- Claim C8, witness: the amended theorem at the concrete press `eC8` into
view 1 of `sessC8` while view 0 is mid-drag. -/
theorem claim_C8_witness :
    eC8.inaxes = some 1 ∧ sC8.current_ax ≠ some 1 ∧
      sessC8.views[1]? = some (ViewData.raster imgX8 [0, 3]) ∧
      (((handlePress sessC8 sC8 eC8).current_ax = some 1 ∧
        (handlePress sessC8 sC8 eC8).current_img =
          some (ViewData.raster imgX8 [0, 3]) ∧
        (handlePress sessC8 sC8 eC8).selection_start =
          some (eC8.xdata, eC8.ydata) ∧
        (handlePress sessC8 sC8 eC8).rect =
          some (eC8.xdata, eC8.ydata, 0, 0)) ∧
      onMotion sC8 eC8 = sC8 ∧
      onRelease vizX sC8 fsX eC8 = some (sC8, fsX, none)) :=
  ⟨rfl, by simp [sC8], rfl,
    claim_C8_amended vizX sessC8 sC8 fsX eC8 1 (ViewData.raster imgX8 [0, 3])
      rfl (by simp [sC8]) rfl⟩

/-! ## C10: point-cloud commits operate on a fresh copy -/

/-- One full gesture on the point-cloud view: the press re-activates the view
with the session's original array, the release masks a copy; the resulting
state is independent of the previous handler state and still holds the
original array. -/
lemma commit_cloud_step (viz : Viz) (sess : Session) (s : CtrlState)
    (fs : Store) (v : ℕ) (pts : Cloud) (pe re : Event)
    (hv : sess.views[v]? = some (ViewData.cloud pts))
    (h1 : pe.inaxes = some v) (h2 : re.inaxes = some v) :
    commitOnView viz sess s fs pe re =
      some (⟨none, none, some v, some (ViewData.cloud pts), none, none⟩, fs,
        some (Display.cloud (maskCloud (min pe.xdata re.xdata)
          (max pe.xdata re.xdata) (min pe.ydata re.ydata)
          (max pe.ydata re.ydata) pts))) := by
  simp [commitOnView, handlePress, activate, onPress, onRelease, hv, h1, h2]

/-- Claim C10: a point-cloud commit never modifies the stored array or any
file — after the commit the state still holds the session's original array —
and a second gesture on the same view masks the original array again, not
the previously masked copy: in-memory point-cloud redactions do not
compound. -/
theorem claim_C10_fresh_copy (viz : Viz) (sess : Session) (s : CtrlState)
    (fs : Store) (v : ℕ) (pts : Cloud) (pe1 re1 pe2 re2 : Event)
    (hv : sess.views[v]? = some (ViewData.cloud pts))
    (h1 : pe1.inaxes = some v) (h2 : re1.inaxes = some v)
    (h3 : pe2.inaxes = some v) (h4 : re2.inaxes = some v) :
    commitOnView viz sess s fs pe1 re1 =
      some (⟨none, none, some v, some (ViewData.cloud pts), none, none⟩, fs,
        some (Display.cloud (maskCloud (min pe1.xdata re1.xdata)
          (max pe1.xdata re1.xdata) (min pe1.ydata re1.ydata)
          (max pe1.ydata re1.ydata) pts))) ∧
    commitOnView viz sess
        (⟨none, none, some v, some (ViewData.cloud pts), none, none⟩ :
          CtrlState) fs pe2 re2 =
      some (⟨none, none, some v, some (ViewData.cloud pts), none, none⟩, fs,
        some (Display.cloud (maskCloud (min pe2.xdata re2.xdata)
          (max pe2.xdata re2.xdata) (min pe2.ydata re2.ydata)
          (max pe2.ydata re2.ydata) pts))) :=
  ⟨commit_cloud_step viz sess s fs v pts pe1 re1 hv h1 h2,
    commit_cloud_step viz sess _ fs v pts pe2 re2 hv h3 h4⟩

/-- Claim C10, witness: two successive gestures on view 0 of `sessC8`. -/
theorem claim_C10_witness :
    sessC8.views[0]? = some (ViewData.cloud [(0, 0, 1, 1)]) ∧
    (commitOnView vizX sessC8 s0 fsX ⟨some 0, 0, 0⟩ ⟨some 0, 1, 1⟩ =
      some (⟨none, none, some 0, some (ViewData.cloud [(0, 0, 1, 1)]), none,
          none⟩, fsX,
        some (Display.cloud (maskCloud (min 0 1) (max 0 1) (min 0 1)
          (max 0 1) [(0, 0, 1, 1)]))) ∧
    commitOnView vizX sessC8
        (⟨none, none, some 0, some (ViewData.cloud [(0, 0, 1, 1)]), none,
          none⟩ : CtrlState) fsX ⟨some 0, 2, 2⟩ ⟨some 0, 3, 3⟩ =
      some (⟨none, none, some 0, some (ViewData.cloud [(0, 0, 1, 1)]), none,
          none⟩, fsX,
        some (Display.cloud (maskCloud (min 2 3) (max 2 3) (min 2 3)
          (max 2 3) [(0, 0, 1, 1)])))) :=
  ⟨rfl, claim_C10_fresh_copy vizX sessC8 s0 fsX 0 [(0, 0, 1, 1)]
    ⟨some 0, 0, 0⟩ ⟨some 0, 1, 1⟩ ⟨some 0, 2, 2⟩ ⟨some 0, 3, 3⟩
    rfl rfl rfl rfl rfl⟩

/-! ## C3: raster persistence across repeated commits -/

/-- One full gesture on a raster view: the press re-activates the view with
the session's original image (loaded from the source root), the release
blacks out the latest region of that original image and overwrites the
mirrored path with the result.  The resulting state is independent of the
previous handler state. -/
lemma commit_raster_step (viz : Viz) (sess : Session) (s : CtrlState)
    (fs : Store) (v : ℕ) (img : Raster) (pth : DPath) (pe re : Event)
    (hv : sess.views[v]? = some (ViewData.raster img pth))
    (h1 : pe.inaxes = some v) (h2 : re.inaxes = some v) :
    commitOnView viz sess s fs pe re =
      some (⟨none, none, some v, some (ViewData.raster img pth), some pth,
          none⟩,
        fs.write (mirrorPath viz pth)
          (blackoutSlice img (truncQ (min pe.ydata re.ydata))
            (truncQ (max pe.ydata re.ydata)) (truncQ (min pe.xdata re.xdata))
            (truncQ (max pe.xdata re.xdata))),
        some (Display.raster
          (blackoutSlice img (truncQ (min pe.ydata re.ydata))
            (truncQ (max pe.ydata re.ydata)) (truncQ (min pe.xdata re.xdata))
            (truncQ (max pe.xdata re.xdata))))) := by
  simp [commitOnView, handlePress, activate, onPress, onRelease, hv, h1, h2]

/-- Writing one path changes no other path. -/
lemma Store.write_file_ne (fs : Store) (p q : DPath) (img : Raster)
    (h : q ≠ p) : (fs.write p img).file q = fs.file q := by
  simp [Store.write, h]

/-- Claim C3 as amended: over any sequence of gestures on the same raster
view ending with the gesture `(pe, re)`, the source file is never modified,
and the mirrored file afterwards equals the session's original source image
with only the *latest* region blacked out: each commit restarts from the
image loaded at frame-open time, so repeated edits overwrite rather than
accumulate on the mirror. -/
theorem claim_C3_amended (viz : Viz) (sess : Session) (v : ℕ) (img : Raster)
    (pth : DPath) (s : CtrlState) (fs : Store) (L : List (Event × Event))
    (pe re : Event)
    (hv : sess.views[v]? = some (ViewData.raster img pth))
    (hall : ∀ pr ∈ L, pr.1.inaxes = some v ∧ pr.2.inaxes = some v)
    (h1 : pe.inaxes = some v) (h2 : re.inaxes = some v)
    (hm : mirrorPath viz pth ≠ pth) :
    ∃ sEnd fsEnd,
      runCommits viz sess s fs (L ++ [(pe, re)]) = some (sEnd, fsEnd) ∧
        fsEnd.file pth = fs.file pth ∧
        fsEnd.file (mirrorPath viz pth) =
          some (blackoutSlice img (truncQ (min pe.ydata re.ydata))
            (truncQ (max pe.ydata re.ydata)) (truncQ (min pe.xdata re.xdata))
            (truncQ (max pe.xdata re.xdata))) := by
  induction L generalizing s fs with
  | nil =>
    refine ⟨⟨none, none, some v, some (ViewData.raster img pth), some pth,
        none⟩,
      fs.write (mirrorPath viz pth)
        (blackoutSlice img (truncQ (min pe.ydata re.ydata))
          (truncQ (max pe.ydata re.ydata)) (truncQ (min pe.xdata re.xdata))
          (truncQ (max pe.xdata re.xdata))), ?_, ?_, ?_⟩
    · simp only [List.nil_append, runCommits,
        commit_raster_step viz sess s fs v img pth pe re hv h1 h2]
    · exact Store.write_file_ne fs (mirrorPath viz pth) pth _
        (fun hh => hm hh.symm)
    · simp [Store.write]
  | cons hd tl ih =>
    obtain ⟨pe0, re0⟩ := hd
    have hh := hall (pe0, re0) (by simp)
    obtain ⟨sEnd, fsEnd, hrun, hsrc, hmir⟩ :=
      ih (⟨none, none, some v, some (ViewData.raster img pth), some pth,
          none⟩ : CtrlState)
        (fs.write (mirrorPath viz pth)
          (blackoutSlice img (truncQ (min pe0.ydata re0.ydata))
            (truncQ (max pe0.ydata re0.ydata))
            (truncQ (min pe0.xdata re0.xdata))
            (truncQ (max pe0.xdata re0.xdata))))
        (fun pr hpr => hall pr (by simp [hpr]))
    refine ⟨sEnd, fsEnd, ?_, ?_, hmir⟩
    · simp only [List.cons_append, runCommits,
        commit_raster_step viz sess s fs v img pth pe0 re0 hv hh.1 hh.2]
      exact hrun
    · rw [hsrc]
      exact Store.write_file_ne fs (mirrorPath viz pth) pth _
        (fun hh2 => hm hh2.symm)

/-- A 1 × 2 single-channel all-ones raster. -/
def imgC3 : Raster := ⟨1, 2, 1, fun _ _ _ => 1⟩

/-- Source path of `imgC3` under the dataroot of `vizX`. -/
def pthC3 : DPath := [0, 7]

/-- A one-view session showing `imgC3`. -/
def sessC3 : Session := ⟨[ViewData.raster imgC3 pthC3]⟩

/-- The initial store: only the source file exists. -/
def fsC3 : Store := ⟨fun q => if q = [0, 7] then some imgC3 else none⟩

/-- The two gestures: first black out column 0, then column 1. -/
def gesturesC3 : List (Event × Event) :=
  [(⟨some 0, 0, 0⟩, ⟨some 0, 1, 1⟩), (⟨some 0, 1, 0⟩, ⟨some 0, 2, 1⟩)]

/-- The mirrored file's pixel (0,0,0) after both gestures. -/
def c3MirrorPixel : Option ℕ :=
  match runCommits vizX sessC3 s0 fsC3 gesturesC3 with
  | some (_, fsEnd) => (fsEnd.file [1, 7]).map (fun m => m.pix 0 0 0)
  | none => none

/-- Claim C3, counterexample: after blacking out pixel (0,0) and then pixel
(0,1) of the all-ones 1 × 2 raster, the mirrored file holds value 1 at pixel
(0,0) — the first region was reverted by the second commit, so the two edits
did not accumulate as claimed. -/
theorem claim_C3_counterexample :
    c3MirrorPixel = some 1 ∧ (some 1 : Option ℕ) ≠ some 0 := by
  constructor <;> decide

/-- Claim C3, witness: the amended theorem at a single concrete gesture on
`sessC3`. -/
theorem claim_C3_witness :
    sessC3.views[0]? = some (ViewData.raster imgC3 pthC3) ∧
      mirrorPath vizX pthC3 ≠ pthC3 ∧
      (∃ sEnd fsEnd,
        runCommits vizX sessC3 s0 fsC3 ([] ++ [(⟨some 0, 0, 0⟩,
          ⟨some 0, 1, 1⟩)]) = some (sEnd, fsEnd) ∧
          fsEnd.file pthC3 = fsC3.file pthC3 ∧
          fsEnd.file (mirrorPath vizX pthC3) =
            some (blackoutSlice imgC3
              (truncQ (min (Event.mk (some 0) 0 0).ydata
                (Event.mk (some 0) 1 1).ydata))
              (truncQ (max (Event.mk (some 0) 0 0).ydata
                (Event.mk (some 0) 1 1).ydata))
              (truncQ (min (Event.mk (some 0) 0 0).xdata
                (Event.mk (some 0) 1 1).xdata))
              (truncQ (max (Event.mk (some 0) 0 0).xdata
                (Event.mk (some 0) 1 1).xdata)))) :=
  ⟨rfl, by decide,
    claim_C3_amended vizX sessC3 0 imgC3 pthC3 s0 fsC3 []
      ⟨some 0, 0, 0⟩ ⟨some 0, 1, 1⟩ rfl (by simp) rfl rfl (by decide)⟩

end NuScenesViewer
